import Mathlib

/-!
Verification of the HWRNG statistical self-test engine of the
hardware-bitcoin-wallet repository (pic32 port).

The repository snapshot contains the calibration-limit table
`pic32/hwrng_limits.h`; the estimators and the orchestrator themselves
(`statistics.c` / `hwrng.c`) are not part of the snapshot, so they are
modelled from the design specification.  Every constant below is copied
verbatim from `hwrng_limits.h`; every other definition carries a doc
comment stating what it models.
-/

set_option maxHeartbeats 1000000

open Classical

namespace Hwrng

/-! ## Calibration constants, from `pic32/hwrng_limits.h` -/

/-- Nominal mean, in ADC output number (`hwrng_limits.h` line 18). -/
def STATTEST_CENTRAL_MEAN : ℝ := 511.5

/-- Minimum acceptable mean (`hwrng_limits.h` line 27). -/
def STATTEST_MIN_MEAN : ℝ := 0.901 * STATTEST_CENTRAL_MEAN - 75.0 - 8.0

/-- Maximum acceptable mean (`hwrng_limits.h` line 36). -/
def STATTEST_MAX_MEAN : ℝ := 1.109 * STATTEST_CENTRAL_MEAN + 75.0 + 8.0

/-- Nominal variance, in ADC output number squared (`hwrng_limits.h` line 38). -/
def STATTEST_CENTRAL_VARIANCE : ℝ := 1402.3

/-- Minimum acceptable variance (`hwrng_limits.h` line 52). -/
def STATTEST_MIN_VARIANCE : ℝ := 0.846 * 0.656 * 0.798 * 0.709 * STATTEST_CENTRAL_VARIANCE

/-- Maximum acceptable variance (`hwrng_limits.h` line 72). -/
def STATTEST_MAX_VARIANCE : ℝ :=
  1.154 * 1.523 * 1.253 * 1.409 * 2.5 * STATTEST_CENTRAL_VARIANCE

/-- Maximum acceptable skewness magnitude (`hwrng_limits.h` line 78). -/
def STATTEST_MAX_SKEWNESS : ℝ := 0.416

/-- Minimum acceptable excess kurtosis (`hwrng_limits.h` line 83). -/
def STATTEST_MIN_KURTOSIS : ℝ := -0.83

/-- Maximum acceptable excess kurtosis (`hwrng_limits.h` line 91). -/
def STATTEST_MAX_KURTOSIS : ℝ := 1.13

/-- PSD bandwidth threshold, relative to the peak value (`hwrng_limits.h` line 115). -/
def PSD_BANDWIDTH_THRESHOLD : ℝ := 0.03

/-- Number of consecutive below-threshold bins declaring a band edge
(`hwrng_limits.h` line 128). -/
def PSD_THRESHOLD_REPETITIONS : ℕ := 5

/-- Minimum acceptable peak frequency, as a fraction of the sampling rate
(`hwrng_limits.h` line 134). -/
def PSD_MIN_PEAK : ℝ := 0.0208

/-- Maximum acceptable peak frequency, as a fraction of the sampling rate
(`hwrng_limits.h` line 140). -/
def PSD_MAX_PEAK : ℝ := 0.375

/-- Minimum acceptable bandwidth, as a fraction of the sampling rate
(`hwrng_limits.h` line 149). -/
def PSD_MIN_BANDWIDTH : ℝ := 0.1875

/-- First lag the autocorrelation threshold is applied to (`hwrng_limits.h` line 163). -/
def AUTOCORR_START_LAG : ℕ := 7

/-- Normalised autocorrelation threshold (`hwrng_limits.h` line 176). -/
def AUTOCORR_THRESHOLD : ℝ := 2.8

/-- Minimum acceptable entropy estimate in bits per sample (`hwrng_limits.h` line 182). -/
def STATTEST_MIN_ENTROPY : ℝ := 6.21

/-! ## Data model -/

/-- Modelled from the spec: `TestLimits` is the immutable configuration record
holding all calibration thresholds of section 4 of the spec. -/
structure TestLimits where
  minMean : ℝ
  maxMean : ℝ
  minVariance : ℝ
  maxVariance : ℝ
  maxSkewness : ℝ
  minKurtosis : ℝ
  maxKurtosis : ℝ
  bandwidthThreshold : ℝ
  thresholdRepetitions : ℕ
  minPeak : ℝ
  maxPeak : ℝ
  minBandwidth : ℝ
  startLag : ℕ
  autocorrThreshold : ℝ
  minEntropy : ℝ

/-- The limits table of the pic32 hardware revision, assembled from the
constants of `hwrng_limits.h`. -/
def pic32Limits : TestLimits :=
  ⟨STATTEST_MIN_MEAN, STATTEST_MAX_MEAN, STATTEST_MIN_VARIANCE, STATTEST_MAX_VARIANCE,
   STATTEST_MAX_SKEWNESS, STATTEST_MIN_KURTOSIS, STATTEST_MAX_KURTOSIS,
   PSD_BANDWIDTH_THRESHOLD, PSD_THRESHOLD_REPETITIONS, PSD_MIN_PEAK, PSD_MAX_PEAK,
   PSD_MIN_BANDWIDTH, AUTOCORR_START_LAG, AUTOCORR_THRESHOLD, STATTEST_MIN_ENTROPY⟩

/-- Modelled from the spec: the tag set of section 6 naming each sub-test failure. -/
inductive FailureTag where
  | MeanLow
  | MeanHigh
  | VarianceLow
  | VarianceHigh
  | SkewnessExceeded
  | KurtosisLow
  | KurtosisHigh
  | PeakFrequencyLow
  | PeakFrequencyHigh
  | BandwidthTooNarrow
  | AutocorrelationExceeded
  | EntropyTooLow
deriving DecidableEq

/-- Modelled from the spec: a per-test outcome is either a pass, a tagged failure
carrying the measured value, or the not-computable marker used for
skewness/kurtosis over a zero-variance window. -/
inductive SubOutcome where
  | pass
  | fail (tag : FailureTag) (value : ℝ)
  | notComputable

/-- True exactly on the `pass` outcome. -/
def SubOutcome.isPass : SubOutcome → Bool
  | .pass => true
  | _ => false

/-- Modelled from the spec: the overall verdict of the orchestrator. -/
inductive Verdict where
  | Pass
  | Fail
deriving DecidableEq

/-! ## MomentEstimator, modelled from spec section 4.1 -/

/-- Modelled from the spec: `mean = (1/N) * sum of x_i` over the sample window. -/
noncomputable def mean (w : List ℝ) : ℝ :=
  (∑ i ∈ Finset.range w.length, w.getD i 0) / (w.length : ℝ)

/-- Modelled from the spec: the sum of the k-th powers of the mean-centred samples. -/
noncomputable def centralSum (w : List ℝ) (k : ℕ) : ℝ :=
  ∑ i ∈ Finset.range w.length, (w.getD i 0 - mean w) ^ k

/-- Modelled from the spec: population variance `(1/N) * sum of (x_i - mean)^2`. -/
noncomputable def variance (w : List ℝ) : ℝ :=
  centralSum w 2 / (w.length : ℝ)

/-- Modelled from the spec: standardised third central moment. -/
noncomputable def skewness (w : List ℝ) : ℝ :=
  (centralSum w 3 / (w.length : ℝ)) / Real.sqrt (variance w) ^ 3

/-- Modelled from the spec: standardised fourth central moment minus 3 (excess kurtosis). -/
noncomputable def kurtosis (w : List ℝ) : ℝ :=
  (centralSum w 4 / (w.length : ℝ)) / variance w ^ 2 - 3

/-- Modelled from the spec: the `Moments` record; skewness and kurtosis are
`Option`-valued because they are not computable over a zero-variance window. -/
structure Moments where
  mean : ℝ
  variance : ℝ
  skewness : Option ℝ
  kurtosis : Option ℝ

/-- Modelled from the spec: the MomentEstimator.  A zero variance is detected
before the standardised moments are computed, and skewness/kurtosis are then
reported as not computable. -/
noncomputable def momentsOf (w : List ℝ) : Moments :=
  ⟨mean w, variance w,
   if variance w = 0 then none else some (skewness w),
   if variance w = 0 then none else some (kurtosis w)⟩

/-- Modelled from the spec: the mean verdict rule, failing below `minMean`
or above `maxMean`. -/
noncomputable def meanCheck (L : TestLimits) (m : ℝ) : SubOutcome :=
  if m < L.minMean then .fail .MeanLow m
  else if L.maxMean < m then .fail .MeanHigh m
  else .pass

/-- Modelled from the spec: the variance verdict rule. -/
noncomputable def varianceCheck (L : TestLimits) (v : ℝ) : SubOutcome :=
  if v < L.minVariance then .fail .VarianceLow v
  else if L.maxVariance < v then .fail .VarianceHigh v
  else .pass

/-- Modelled from the spec: the skewness verdict rule, on the optional
standardised skewness. -/
noncomputable def skewnessCheck (L : TestLimits) (s : Option ℝ) : SubOutcome :=
  match s with
  | none => .notComputable
  | some s => if L.maxSkewness < |s| then .fail .SkewnessExceeded s else .pass

/-- Modelled from the spec: the kurtosis verdict rule, on the optional
excess kurtosis. -/
noncomputable def kurtosisCheck (L : TestLimits) (k : Option ℝ) : SubOutcome :=
  match k with
  | none => .notComputable
  | some k =>
    if k < L.minKurtosis then .fail .KurtosisLow k
    else if L.maxKurtosis < k then .fail .KurtosisHigh k
    else .pass

/-! ## SpectralAnalyzer, modelled from spec section 4.2 -/

/-- Modelled from the spec: the peak bin is the frequency bin of maximum PSD
value, excluding the DC bin (bin 0); a scan keeps the first maximal bin. -/
noncomputable def peakBin (s : List ℝ) : ℕ :=
  (List.range' 1 (s.length - 1)).foldl
    (fun best j => if s.getD best 0 < s.getD j 0 then j else best) 1

/-- Modelled from the spec: a bin index expressed as a fraction of the sampling
rate, via `bin / N`. -/
noncomputable def peakFreqFrac (N : ℕ) (s : List ℝ) : ℝ :=
  (peakBin s : ℝ) / (N : ℝ)

/-- Modelled from the spec: the peak-frequency verdict rule, failing outside
`[minPeak, maxPeak]`. -/
noncomputable def peakCheck (L : TestLimits) (N : ℕ) (s : List ℝ) : SubOutcome :=
  if peakFreqFrac N s < L.minPeak then .fail .PeakFrequencyLow (peakFreqFrac N s)
  else if L.maxPeak < peakFreqFrac N s then .fail .PeakFrequencyHigh (peakFreqFrac N s)
  else .pass

/-- Modelled from the spec: at bin `j`, `reps` consecutive bins (upwards) all lie
strictly below the threshold `t`, entirely within the spectrum. -/
def edgeRun (reps : ℕ) (s : List ℝ) (t : ℝ) (j : ℕ) : Prop :=
  j + reps ≤ s.length ∧ ∀ i < reps, s.getD (j + i) 0 < t

/-- Modelled from the spec: at bin `j`, `reps` consecutive bins (downwards) all
lie strictly below the threshold `t`. -/
def lowEdgeRun (reps : ℕ) (s : List ℝ) (t : ℝ) (j : ℕ) : Prop :=
  reps ≤ j + 1 ∧ ∀ i < reps, s.getD (j - i) 0 < t

/-- First element of the candidate list satisfying `P`, or the default `d`
when none does. -/
noncomputable def findFirst (P : ℕ → Prop) (d : ℕ) : List ℕ → ℕ
  | [] => d
  | j :: rest => if P j then j else findFirst P d rest

/-- Modelled from the spec: scanning upward from the peak bin `p`, the upper band
edge is the first bin opening a below-threshold run; if no run is found the
band extends to the last bin of the spectrum. -/
noncomputable def upperEdge (reps : ℕ) (s : List ℝ) (t : ℝ) (p : ℕ) : ℕ :=
  findFirst (edgeRun reps s t) (s.length - 1) (List.range' p (s.length - p))

/-- Modelled from the spec: scanning downward from the peak bin `p`, the lower
band edge is the first bin opening a below-threshold run; if no run is found
the band extends down to bin 0. -/
noncomputable def lowerEdge (reps : ℕ) (s : List ℝ) (t : ℝ) (p : ℕ) : ℕ :=
  findFirst (lowEdgeRun reps s t) 0 ((List.range' 0 (p + 1)).reverse)

/-- Modelled from the spec: the edge-detection threshold,
`bandwidthThreshold` times the peak PSD value. -/
noncomputable def psdThreshold (L : TestLimits) (s : List ℝ) : ℝ :=
  L.bandwidthThreshold * s.getD (peakBin s) 0

/-- The upper band edge of the spectrum under the limits `L`. -/
noncomputable def psdUpperEdge (L : TestLimits) (s : List ℝ) : ℕ :=
  upperEdge L.thresholdRepetitions s (psdThreshold L s) (peakBin s)

/-- The lower band edge of the spectrum under the limits `L`. -/
noncomputable def psdLowerEdge (L : TestLimits) (s : List ℝ) : ℕ :=
  lowerEdge L.thresholdRepetitions s (psdThreshold L s) (peakBin s)

/-- Modelled from the spec: bandwidth = upper edge frequency minus lower edge
frequency, as a fraction of the sampling rate. -/
noncomputable def bandwidthFrac (L : TestLimits) (N : ℕ) (s : List ℝ) : ℝ :=
  ((psdUpperEdge L s : ℝ) - (psdLowerEdge L s : ℝ)) / (N : ℝ)

/-- Modelled from the spec: the bandwidth verdict rule, failing below
`minBandwidth`. -/
noncomputable def bandwidthCheck (L : TestLimits) (N : ℕ) (s : List ℝ) : SubOutcome :=
  if bandwidthFrac L N s < L.minBandwidth then .fail .BandwidthTooNarrow (bandwidthFrac L N s)
  else .pass

/-- Modelled from the spec: the power spectral density estimate, the squared
magnitude of the discrete Fourier transform of the window, one value per
frequency bin up to half the sampling rate. -/
noncomputable def dftBin (w : List ℝ) (j : ℕ) : ℂ :=
  ∑ i ∈ Finset.range w.length,
    (w.getD i 0 : ℂ) * Complex.exp (-(2 * Real.pi * Complex.I * i * j) / (w.length : ℂ))

/-- Modelled from the spec: the `PowerSpectrum` derived from a sample window. -/
noncomputable def psdOf (w : List ℝ) : List ℝ :=
  (List.range (w.length / 2 + 1)).map (fun j => Complex.normSq (dftBin w j))

/-! ## AutocorrelationEstimator, modelled from spec section 4.3 -/

/-- Modelled from the spec: the unnormalised correlogram numerator,
`sum over i of (x_i - mean) * (x_with_index_i_plus_k - mean)`. -/
noncomputable def acorrNum (w : List ℝ) (k : ℕ) : ℝ :=
  ∑ i ∈ Finset.range (w.length - k), (w.getD i 0 - mean w) * (w.getD (i + k) 0 - mean w)

/-- Modelled from the spec: normalised autocorrelation
`r(k) = acorrNum w k / (N * variance)`. -/
noncomputable def autocorr (w : List ℝ) (k : ℕ) : ℝ :=
  acorrNum w k / ((w.length : ℝ) * variance w)

/-- Modelled from the spec: the largest checked lag, a modest fraction of `N`. -/
def autocorrMaxLag (w : List ℝ) : ℕ := w.length / 4

/-- Modelled from the spec: some checked lag (from the start lag up to the
maximum lag) has a normalised autocorrelation magnitude over the threshold. -/
def autocorrBad (L : TestLimits) (w : List ℝ) : Prop :=
  ∃ k, L.startLag ≤ k ∧ k ≤ autocorrMaxLag w ∧ L.autocorrThreshold < |autocorr w k|

/-- Modelled from the spec: the autocorrelation verdict rule; lags below the
start lag are deliberately excluded and lag 0 is never checked. -/
noncomputable def autocorrCheck (L : TestLimits) (w : List ℝ) : SubOutcome :=
  if h : autocorrBad L w then .fail .AutocorrelationExceeded (autocorr w h.choose)
  else .pass

/-! ## EntropyEstimator, modelled from spec section 4.4 -/

/-- Modelled from the spec: per-sample Shannon entropy under a Gaussian noise
model, `0.5 * log2 (2 * pi * e * variance)` bits. -/
noncomputable def entropyEstimate (v : ℝ) : ℝ :=
  0.5 * Real.logb 2 (2 * Real.pi * Real.exp 1 * v)

/-- Modelled from the spec: the entropy verdict rule, failing below `minEntropy`. -/
noncomputable def entropyCheck (L : TestLimits) (v : ℝ) : SubOutcome :=
  if entropyEstimate v < L.minEntropy then .fail .EntropyTooLow (entropyEstimate v)
  else .pass

/-! ## SelfTestOrchestrator, modelled from spec section 4.5 -/

/-- Modelled from the spec: the `SelfTestReport`, one outcome per check plus
the overall verdict. -/
structure SelfTestReport where
  meanOut : SubOutcome
  varianceOut : SubOutcome
  skewnessOut : SubOutcome
  kurtosisOut : SubOutcome
  peakOut : SubOutcome
  bandwidthOut : SubOutcome
  autocorrOut : SubOutcome
  entropyOut : SubOutcome
  verdict : Verdict

/-- Modelled from the spec: the overall verdict is `Pass` only if every
collected outcome passes, otherwise `Fail`. -/
def overallVerdict (outs : List SubOutcome) : Verdict :=
  if outs.all SubOutcome.isPass then .Pass else .Fail

/-- Modelled from the spec: the orchestrator runs every estimator against the
limits, collects every per-test outcome and aggregates them into one report;
it never stops early. -/
noncomputable def selfTest (w : List ℝ) (L : TestLimits) : SelfTestReport :=
  let mo := momentsOf w
  let s := psdOf w
  let o1 := meanCheck L mo.mean
  let o2 := varianceCheck L mo.variance
  let o3 := skewnessCheck L mo.skewness
  let o4 := kurtosisCheck L mo.kurtosis
  let o5 := peakCheck L w.length s
  let o6 := bandwidthCheck L w.length s
  let o7 := autocorrCheck L w
  let o8 := entropyCheck L mo.variance
  ⟨o1, o2, o3, o4, o5, o6, o7, o8, overallVerdict [o1, o2, o3, o4, o5, o6, o7, o8]⟩

/-- All eight collected outcomes of a report pass. -/
def allPass (r : SelfTestReport) : Prop :=
  r.meanOut = .pass ∧ r.varianceOut = .pass ∧ r.skewnessOut = .pass ∧
  r.kurtosisOut = .pass ∧ r.peakOut = .pass ∧ r.bandwidthOut = .pass ∧
  r.autocorrOut = .pass ∧ r.entropyOut = .pass

/-- Modelled from the spec: the input/output relation of one orchestrator run.
A report is produced from a window and a limits table when every per-check
outcome field is the outcome of the corresponding estimator on that window
and those limits, and the verdict is `Pass` exactly when all outcomes pass. -/
noncomputable def producesReport (w : List ℝ) (L : TestLimits) (r : SelfTestReport) : Prop :=
  r.meanOut = meanCheck L (momentsOf w).mean ∧
  r.varianceOut = varianceCheck L (momentsOf w).variance ∧
  r.skewnessOut = skewnessCheck L (momentsOf w).skewness ∧
  r.kurtosisOut = kurtosisCheck L (momentsOf w).kurtosis ∧
  r.peakOut = peakCheck L w.length (psdOf w) ∧
  r.bandwidthOut = bandwidthCheck L w.length (psdOf w) ∧
  r.autocorrOut = autocorrCheck L w ∧
  r.entropyOut = entropyCheck L (momentsOf w).variance ∧
  (r.verdict = .Pass ↔ allPass r)

/-- Modelled from the spec: a window alternating between two fixed values
with period 2. -/
noncomputable def altWindow (a b : ℝ) (n : ℕ) : List ℝ :=
  (List.range n).map (fun i => if i % 2 = 0 then a else b)

/-- A six-sample window whose computed moments are exactly the nominal
calibration values: mean 511.5, variance 1402.3, skewness 0, excess kurtosis 0. -/
noncomputable def calibWindow : List ℝ :=
  [511.5, 511.5, 511.5, 511.5, 511.5 - Real.sqrt 4206.9, 511.5 + Real.sqrt 4206.9]

/-- A twelve-sample window with every sample inside the 10-bit ADC range (ten
samples at mid-scale and two symmetric outliers at distance 100) whose excess
kurtosis is exactly 3, above `STATTEST_MAX_KURTOSIS`. -/
def kurtHighWindow : List ℝ :=
  [511.5, 511.5, 511.5, 511.5, 511.5, 511.5, 511.5, 511.5, 511.5, 511.5, 411.5, 611.5]

/-! ## Basic lemmas -/

@[simp] lemma pic32_minMean : pic32Limits.minMean = STATTEST_MIN_MEAN := rfl

@[simp] lemma pic32_maxMean : pic32Limits.maxMean = STATTEST_MAX_MEAN := rfl

@[simp] lemma pic32_minVariance : pic32Limits.minVariance = STATTEST_MIN_VARIANCE := rfl

@[simp] lemma pic32_maxVariance : pic32Limits.maxVariance = STATTEST_MAX_VARIANCE := rfl

@[simp] lemma pic32_maxSkewness : pic32Limits.maxSkewness = STATTEST_MAX_SKEWNESS := rfl

@[simp] lemma pic32_minKurtosis : pic32Limits.minKurtosis = STATTEST_MIN_KURTOSIS := rfl

@[simp] lemma pic32_maxKurtosis : pic32Limits.maxKurtosis = STATTEST_MAX_KURTOSIS := rfl

@[simp] lemma pic32_bandwidthThreshold :
    pic32Limits.bandwidthThreshold = PSD_BANDWIDTH_THRESHOLD := rfl

@[simp] lemma pic32_thresholdRepetitions :
    pic32Limits.thresholdRepetitions = PSD_THRESHOLD_REPETITIONS := rfl

@[simp] lemma pic32_minPeak : pic32Limits.minPeak = PSD_MIN_PEAK := rfl

@[simp] lemma pic32_maxPeak : pic32Limits.maxPeak = PSD_MAX_PEAK := rfl

@[simp] lemma pic32_minBandwidth : pic32Limits.minBandwidth = PSD_MIN_BANDWIDTH := rfl

@[simp] lemma pic32_startLag : pic32Limits.startLag = AUTOCORR_START_LAG := rfl

@[simp] lemma pic32_autocorrThreshold :
    pic32Limits.autocorrThreshold = AUTOCORR_THRESHOLD := rfl

@[simp] lemma pic32_minEntropy : pic32Limits.minEntropy = STATTEST_MIN_ENTROPY := rfl

lemma isPass_iff (o : SubOutcome) : o.isPass = true ↔ o = .pass := by
  cases o <;> simp [SubOutcome.isPass]

lemma overallVerdict_pass_iff (o1 o2 o3 o4 o5 o6 o7 o8 : SubOutcome) :
    overallVerdict [o1, o2, o3, o4, o5, o6, o7, o8] = Verdict.Pass ↔
      (o1 = .pass ∧ o2 = .pass ∧ o3 = .pass ∧ o4 = .pass ∧
       o5 = .pass ∧ o6 = .pass ∧ o7 = .pass ∧ o8 = .pass) := by
  have hall : ([o1, o2, o3, o4, o5, o6, o7, o8].all SubOutcome.isPass = true) ↔
      (o1 = .pass ∧ o2 = .pass ∧ o3 = .pass ∧ o4 = .pass ∧
       o5 = .pass ∧ o6 = .pass ∧ o7 = .pass ∧ o8 = .pass) := by
    simp [List.all_cons, List.all_nil, Bool.and_eq_true, isPass_iff]
  rw [overallVerdict]
  split_ifs with h
  · exact iff_of_true rfl (hall.mp h)
  · exact iff_of_false (by simp) (fun hc => h (hall.mpr hc))

lemma sum_range_getD (w : List ℝ) (g : ℝ → ℝ) :
    ∑ i ∈ Finset.range w.length, g (w.getD i 0) = (w.map g).sum := by
  induction w with
  | nil => simp
  | cons a l ih =>
    rw [List.length_cons, Finset.sum_range_succ']
    simp only [List.getD_cons_succ, List.getD_cons_zero]
    rw [ih, List.map_cons, List.sum_cons, add_comm]

lemma sum_range_getD_id (w : List ℝ) :
    ∑ i ∈ Finset.range w.length, w.getD i 0 = w.sum := by
  have h := sum_range_getD w (fun x => x)
  simpa using h

lemma variance_replicate (n : ℕ) (c : ℝ) : variance (List.replicate n c) = 0 := by
  cases n with
  | zero => simp [variance, centralSum]
  | succ m =>
    have hm : mean (List.replicate (m + 1) c) = c := by
      rw [mean, List.length_replicate]
      have hterm : ∀ i ∈ Finset.range (m + 1), (List.replicate (m + 1) c).getD i 0 = c := by
        intro i hi
        rw [List.getD_eq_getElem?_getD, List.getElem?_replicate_of_lt (Finset.mem_range.mp hi)]
        rfl
      rw [Finset.sum_congr rfl hterm, Finset.sum_const, Finset.card_range, nsmul_eq_mul]
      field_simp
    rw [variance, centralSum, List.length_replicate]
    have hterm : ∀ i ∈ Finset.range (m + 1),
        ((List.replicate (m + 1) c).getD i 0 - mean (List.replicate (m + 1) c)) ^ 2 = 0 := by
      intro i hi
      rw [hm, List.getD_eq_getElem?_getD, List.getElem?_replicate_of_lt (Finset.mem_range.mp hi)]
      simp
    rw [Finset.sum_congr rfl hterm]
    simp

/-! ## Claim theorems: orchestrator -/

/-- Claim C1: the orchestrator's overall verdict is `Pass` if and only if every
sub-test outcome passes (moments = mean, variance, skewness, kurtosis;
spectral = peak, bandwidth; autocorrelation; entropy), and the report collects
the outcome of every estimator — each outcome field equals the corresponding
estimator's result on the window, regardless of any other outcome — so a
single failing sub-test makes the verdict `Fail` while the report still
contains every per-test outcome. -/
theorem c1_verdict_iff_all_subtests (w : List ℝ) (L : TestLimits) :
    ((selfTest w L).verdict = Verdict.Pass ↔
      ((selfTest w L).meanOut = .pass ∧ (selfTest w L).varianceOut = .pass ∧
       (selfTest w L).skewnessOut = .pass ∧ (selfTest w L).kurtosisOut = .pass) ∧
      ((selfTest w L).peakOut = .pass ∧ (selfTest w L).bandwidthOut = .pass) ∧
      (selfTest w L).autocorrOut = .pass ∧
      (selfTest w L).entropyOut = .pass) ∧
    (selfTest w L).meanOut = meanCheck L (momentsOf w).mean ∧
    (selfTest w L).varianceOut = varianceCheck L (momentsOf w).variance ∧
    (selfTest w L).skewnessOut = skewnessCheck L (momentsOf w).skewness ∧
    (selfTest w L).kurtosisOut = kurtosisCheck L (momentsOf w).kurtosis ∧
    (selfTest w L).peakOut = peakCheck L w.length (psdOf w) ∧
    (selfTest w L).bandwidthOut = bandwidthCheck L w.length (psdOf w) ∧
    (selfTest w L).autocorrOut = autocorrCheck L w ∧
    (selfTest w L).entropyOut = entropyCheck L (momentsOf w).variance := by
  refine ⟨?_, rfl, rfl, rfl, rfl, rfl, rfl, rfl, rfl⟩
  have h := overallVerdict_pass_iff
    (meanCheck L (momentsOf w).mean) (varianceCheck L (momentsOf w).variance)
    (skewnessCheck L (momentsOf w).skewness) (kurtosisCheck L (momentsOf w).kurtosis)
    (peakCheck L w.length (psdOf w)) (bandwidthCheck L w.length (psdOf w))
    (autocorrCheck L w) (entropyCheck L (momentsOf w).variance)
  refine ⟨fun hp => ?_, fun hp => h.mpr ?_⟩
  · obtain ⟨h1, h2, h3, h4, h5, h6, h7, h8⟩ := h.mp hp
    exact ⟨⟨h1, h2, h3, h4⟩, ⟨h5, h6⟩, h7, h8⟩
  · obtain ⟨⟨h1, h2, h3, h4⟩, ⟨h5, h6⟩, h7, h8⟩ := hp
    exact ⟨h1, h2, h3, h4, h5, h6, h7, h8⟩

lemma selfTest_producesReport (w : List ℝ) (L : TestLimits) :
    producesReport w L (selfTest w L) := by
  refine ⟨rfl, rfl, rfl, rfl, rfl, rfl, rfl, rfl, ?_⟩
  exact overallVerdict_pass_iff _ _ _ _ _ _ _ _

/-- Claim C8: the engine is deterministic — any two reports produced by the
orchestrator relation from the identical sample window and identical limits
table are identical; the verdict depends on nothing but those two inputs. -/
theorem c8_orchestrator_deterministic (w : List ℝ) (L : TestLimits)
    (r₁ r₂ : SelfTestReport)
    (h₁ : producesReport w L r₁) (h₂ : producesReport w L r₂) : r₁ = r₂ := by
  obtain ⟨a1, b1, c1, d1, e1, f1, g1, i1, v1⟩ := h₁
  obtain ⟨a2, b2, c2, d2, e2, f2, g2, i2, v2⟩ := h₂
  have ha := a1.trans a2.symm
  have hb := b1.trans b2.symm
  have hc := c1.trans c2.symm
  have hd := d1.trans d2.symm
  have he := e1.trans e2.symm
  have hf := f1.trans f2.symm
  have hg := g1.trans g2.symm
  have hi := i1.trans i2.symm
  have hap : allPass r₁ ↔ allPass r₂ := by
    rw [allPass, allPass, ha, hb, hc, hd, he, hf, hg, hi]
  have hv : r₁.verdict = r₂.verdict := by
    rcases hV1 : r₁.verdict with _ | _ <;> rcases hV2 : r₂.verdict with _ | _
    · rfl
    · exact absurd (v2.mpr (hap.mp (v1.mp hV1))) (by rw [hV2]; simp)
    · exact absurd (v1.mpr (hap.mpr (v2.mp hV2))) (by rw [hV1]; simp)
    · rfl
  cases r₁
  cases r₂
  simp only at ha hb hc hd he hf hg hi hv
  rw [SelfTestReport.mk.injEq]
  exact ⟨ha, hb, hc, hd, he, hf, hg, hi, hv⟩

/-- Witness for C8: the determinism theorem applied to the empty window and the
pic32 limits table, both hypotheses discharged by the totality of the
orchestrator relation. -/
theorem c8_orchestrator_deterministic_witness :
    selfTest ([] : List ℝ) pic32Limits = selfTest ([] : List ℝ) pic32Limits :=
  c8_orchestrator_deterministic [] pic32Limits _ _
    (selfTest_producesReport [] pic32Limits) (selfTest_producesReport [] pic32Limits)

/-! ## Claim theorems: numeric limits -/

/-- Claim C10: the limits table is well-ordered and non-vacuous — each min is
below its max, the variance lower bound is strictly positive, the kurtosis
interval straddles 0 asymmetrically, the bandwidth threshold is strictly
between 0 and 0.5, and both mean limits lie strictly inside the 10-bit ADC
range 0–1023 — and every Low and every High failure tag is reachable by an
in-range window statistic: mean 0 and mean 1023 (realised by in-range
windows) fail MeanLow/MeanHigh, variance 0 (a constant window) and variance
511.5 squared (the window of one sample at each rail) fail
VarianceLow/VarianceHigh, excess kurtosis -2 (the two-point rail window,
realising the universal -2 floor) and excess kurtosis 3 (a twelve-sample
in-range window) fail KurtosisLow/KurtosisHigh, and peak frequency fractions
1/64 and 1/2, both inside the admissible range (0, 1/2], fail
PeakFrequencyLow/PeakFrequencyHigh. -/
theorem c10_limits_well_ordered :
    STATTEST_MIN_MEAN < STATTEST_MAX_MEAN ∧
    0 < STATTEST_MIN_VARIANCE ∧
    STATTEST_MIN_VARIANCE < STATTEST_MAX_VARIANCE ∧
    STATTEST_MIN_KURTOSIS < 0 ∧
    0 < STATTEST_MAX_KURTOSIS ∧
    STATTEST_MAX_KURTOSIS ≠ -STATTEST_MIN_KURTOSIS ∧
    PSD_MIN_PEAK < PSD_MAX_PEAK ∧
    0 < STATTEST_MAX_SKEWNESS ∧
    0 < PSD_BANDWIDTH_THRESHOLD ∧
    PSD_BANDWIDTH_THRESHOLD < 0.5 ∧
    0 < STATTEST_MIN_MEAN ∧
    STATTEST_MIN_MEAN < 1023 ∧
    0 < STATTEST_MAX_MEAN ∧
    STATTEST_MAX_MEAN < 1023 ∧
    meanCheck pic32Limits 0 = .fail .MeanLow 0 ∧
    meanCheck pic32Limits 1023 = .fail .MeanHigh 1023 ∧
    mean [(0:ℝ)] = 0 ∧
    mean [(1023:ℝ)] = 1023 ∧
    variance (List.replicate 4 (500:ℝ)) = 0 ∧
    varianceCheck pic32Limits (variance (List.replicate 4 (500:ℝ))) =
      .fail .VarianceLow 0 ∧
    variance [(0:ℝ), 1023] = 261632.25 ∧
    STATTEST_MAX_VARIANCE < 261632.25 ∧
    varianceCheck pic32Limits (variance [(0:ℝ), 1023]) = .fail .VarianceHigh 261632.25 ∧
    (momentsOf [(0:ℝ), 1023]).kurtosis = some (-2) ∧
    (-2:ℝ) < STATTEST_MIN_KURTOSIS ∧
    kurtosisCheck pic32Limits ((momentsOf [(0:ℝ), 1023]).kurtosis) =
      .fail .KurtosisLow (-2) ∧
    (momentsOf kurtHighWindow).kurtosis = some 3 ∧
    STATTEST_MAX_KURTOSIS < 3 ∧
    kurtosisCheck pic32Limits ((momentsOf kurtHighWindow).kurtosis) =
      .fail .KurtosisHigh 3 ∧
    (∀ x ∈ kurtHighWindow, (0:ℝ) ≤ x ∧ x ≤ 1023) ∧
    (∀ x ∈ [(0:ℝ), 1023], (0:ℝ) ≤ x ∧ x ≤ 1023) ∧
    peakBin [(0:ℝ), 1] = 1 ∧
    0 < peakFreqFrac 64 [(0:ℝ), 1] ∧
    peakFreqFrac 64 [(0:ℝ), 1] < PSD_MIN_PEAK ∧
    peakCheck pic32Limits 64 [(0:ℝ), 1] =
      .fail .PeakFrequencyLow (peakFreqFrac 64 [(0:ℝ), 1]) ∧
    PSD_MAX_PEAK < peakFreqFrac 2 [(0:ℝ), 1] ∧
    peakFreqFrac 2 [(0:ℝ), 1] ≤ 1/2 ∧
    peakCheck pic32Limits 2 [(0:ℝ), 1] =
      .fail .PeakFrequencyHigh (peakFreqFrac 2 [(0:ℝ), 1]) := by
  have hmin : (0:ℝ) < STATTEST_MIN_MEAN := by
    norm_num [STATTEST_MIN_MEAN, STATTEST_CENTRAL_MEAN]
  have hmax : STATTEST_MAX_MEAN < (1023:ℝ) := by
    norm_num [STATTEST_MAX_MEAN, STATTEST_CENTRAL_MEAN]
  have hlow : meanCheck pic32Limits 0 = SubOutcome.fail FailureTag.MeanLow 0 := by
    rw [meanCheck, if_pos]
    exact hmin
  have hhigh : meanCheck pic32Limits 1023 = SubOutcome.fail FailureTag.MeanHigh 1023 := by
    have hA : ¬((1023:ℝ) < pic32Limits.minMean) := by
      rw [pic32_minMean]
      norm_num [STATTEST_MIN_MEAN, STATTEST_CENTRAL_MEAN]
    rw [meanCheck, if_neg hA, pic32_maxMean, if_pos hmax]
  have hvarpos : (0:ℝ) < STATTEST_MIN_VARIANCE := by
    norm_num [STATTEST_MIN_VARIANCE, STATTEST_CENTRAL_VARIANCE]
  have hmean0 : mean [(0:ℝ)] = 0 := by simp [mean]
  have hmean1023 : mean [(1023:ℝ)] = 1023 := by simp [mean]
  have hvrep : variance (List.replicate 4 (500:ℝ)) = 0 := variance_replicate 4 500
  have hvlow : varianceCheck pic32Limits (variance (List.replicate 4 (500:ℝ))) =
      SubOutcome.fail FailureTag.VarianceLow 0 := by
    rw [hvrep, varianceCheck, if_pos]
    exact hvarpos
  have hm01023 : mean [(0:ℝ), 1023] = 511.5 := by
    rw [mean, sum_range_getD_id]
    norm_num [List.sum_cons, List.sum_nil, List.length_cons, List.length_nil]
  have hv01023 : variance [(0:ℝ), 1023] = 261632.25 := by
    have hc : centralSum [(0:ℝ), 1023] 2 =
        (([(0:ℝ), 1023]).map (fun x => (x - mean [(0:ℝ), 1023]) ^ 2)).sum :=
      sum_range_getD [(0:ℝ), 1023] (fun x => (x - mean [(0:ℝ), 1023]) ^ 2)
    rw [variance, hc, hm01023]
    norm_num [List.map_cons, List.map_nil, List.sum_cons, List.sum_nil,
      List.length_cons, List.length_nil]
  have hvhigh_gt : STATTEST_MAX_VARIANCE < (261632.25:ℝ) := by
    norm_num [STATTEST_MAX_VARIANCE, STATTEST_CENTRAL_VARIANCE]
  have hvhigh : varianceCheck pic32Limits (variance [(0:ℝ), 1023]) =
      SubOutcome.fail FailureTag.VarianceHigh 261632.25 := by
    have hnotlow : ¬((261632.25:ℝ) < STATTEST_MIN_VARIANCE) := by
      norm_num [STATTEST_MIN_VARIANCE, STATTEST_CENTRAL_VARIANCE]
    rw [hv01023, varianceCheck, pic32_minVariance, pic32_maxVariance,
      if_neg hnotlow, if_pos hvhigh_gt]
  have hv01023_ne : variance [(0:ℝ), 1023] ≠ 0 := by
    rw [hv01023]
    norm_num
  have hkurt01023 : (momentsOf [(0:ℝ), 1023]).kurtosis = some (-2) := by
    have hc4 : centralSum [(0:ℝ), 1023] 4 =
        (([(0:ℝ), 1023]).map (fun x => (x - mean [(0:ℝ), 1023]) ^ 4)).sum :=
      sum_range_getD [(0:ℝ), 1023] (fun x => (x - mean [(0:ℝ), 1023]) ^ 4)
    simp only [momentsOf]
    rw [if_neg hv01023_ne]
    have hz : kurtosis [(0:ℝ), 1023] = -2 := by
      rw [kurtosis, hc4, hm01023, hv01023]
      norm_num [List.map_cons, List.map_nil, List.sum_cons, List.sum_nil,
        List.length_cons, List.length_nil]
    rw [hz]
  have hkfloor : (-2:ℝ) < STATTEST_MIN_KURTOSIS := by
    norm_num [STATTEST_MIN_KURTOSIS]
  have hkcheckLow : kurtosisCheck pic32Limits ((momentsOf [(0:ℝ), 1023]).kurtosis) =
      SubOutcome.fail FailureTag.KurtosisLow (-2) := by
    rw [hkurt01023, kurtosisCheck, pic32_minKurtosis, if_pos hkfloor]
  have hkhw_mean : mean kurtHighWindow = 511.5 := by
    rw [mean, sum_range_getD_id]
    norm_num [kurtHighWindow, List.sum_cons, List.sum_nil,
      List.length_cons, List.length_nil]
  have hkhw_var : variance kurtHighWindow = 5000/3 := by
    have hc : centralSum kurtHighWindow 2 =
        (kurtHighWindow.map (fun x => (x - mean kurtHighWindow) ^ 2)).sum :=
      sum_range_getD kurtHighWindow (fun x => (x - mean kurtHighWindow) ^ 2)
    rw [variance, hc, hkhw_mean]
    norm_num [kurtHighWindow, List.map_cons, List.map_nil, List.sum_cons, List.sum_nil,
      List.length_cons, List.length_nil]
  have hkhw_ne : variance kurtHighWindow ≠ 0 := by
    rw [hkhw_var]
    norm_num
  have hkhw_kurt : (momentsOf kurtHighWindow).kurtosis = some 3 := by
    have hc4 : centralSum kurtHighWindow 4 =
        (kurtHighWindow.map (fun x => (x - mean kurtHighWindow) ^ 4)).sum :=
      sum_range_getD kurtHighWindow (fun x => (x - mean kurtHighWindow) ^ 4)
    simp only [momentsOf]
    rw [if_neg hkhw_ne]
    have hz : kurtosis kurtHighWindow = 3 := by
      rw [kurtosis, hc4, hkhw_mean, hkhw_var]
      norm_num [kurtHighWindow, List.map_cons, List.map_nil, List.sum_cons, List.sum_nil,
        List.length_cons, List.length_nil]
    rw [hz]
  have hkhigh_gt : STATTEST_MAX_KURTOSIS < (3:ℝ) := by
    norm_num [STATTEST_MAX_KURTOSIS]
  have hkcheckHigh : kurtosisCheck pic32Limits ((momentsOf kurtHighWindow).kurtosis) =
      SubOutcome.fail FailureTag.KurtosisHigh 3 := by
    have hnotlow : ¬((3:ℝ) < STATTEST_MIN_KURTOSIS) := by
      norm_num [STATTEST_MIN_KURTOSIS]
    rw [hkhw_kurt, kurtosisCheck, pic32_minKurtosis, pic32_maxKurtosis,
      if_neg hnotlow, if_pos hkhigh_gt]
  have hranges1 : ∀ x ∈ kurtHighWindow, (0:ℝ) ≤ x ∧ x ≤ 1023 := by
    intro x hx
    simp only [kurtHighWindow, List.mem_cons, List.not_mem_nil, or_false] at hx
    rcases hx with rfl | rfl | rfl | rfl | rfl | rfl | rfl | rfl | rfl | rfl | rfl | rfl <;>
      norm_num
  have hranges2 : ∀ x ∈ [(0:ℝ), 1023], (0:ℝ) ≤ x ∧ x ≤ 1023 := by
    intro x hx
    simp only [List.mem_cons, List.not_mem_nil, or_false] at hx
    rcases hx with rfl | rfl <;> norm_num
  have hpb : peakBin [(0:ℝ), 1] = 1 := by
    rw [peakBin]
    rw [show List.range' 1 ([(0:ℝ), 1].length - 1) = [1] from rfl]
    simp [List.foldl]
  have hfrac64 : peakFreqFrac 64 [(0:ℝ), 1] = 1/64 := by
    rw [peakFreqFrac, hpb]
    norm_num
  have hfrac2 : peakFreqFrac 2 [(0:ℝ), 1] = 1/2 := by
    rw [peakFreqFrac, hpb]
    norm_num
  have hlow_pos : 0 < peakFreqFrac 64 [(0:ℝ), 1] := by
    rw [hfrac64]
    norm_num
  have hlow_lt : peakFreqFrac 64 [(0:ℝ), 1] < PSD_MIN_PEAK := by
    rw [hfrac64]
    norm_num [PSD_MIN_PEAK]
  have hpkLow : peakCheck pic32Limits 64 [(0:ℝ), 1] =
      SubOutcome.fail FailureTag.PeakFrequencyLow (peakFreqFrac 64 [(0:ℝ), 1]) := by
    rw [peakCheck, pic32_minPeak, if_pos hlow_lt]
  have hhigh_gt : PSD_MAX_PEAK < peakFreqFrac 2 [(0:ℝ), 1] := by
    rw [hfrac2]
    norm_num [PSD_MAX_PEAK]
  have hhigh_le : peakFreqFrac 2 [(0:ℝ), 1] ≤ 1/2 := by
    rw [hfrac2]
  have hpkHigh : peakCheck pic32Limits 2 [(0:ℝ), 1] =
      SubOutcome.fail FailureTag.PeakFrequencyHigh (peakFreqFrac 2 [(0:ℝ), 1]) := by
    have hnotmin : ¬(peakFreqFrac 2 [(0:ℝ), 1] < PSD_MIN_PEAK) := by
      rw [hfrac2]
      norm_num [PSD_MIN_PEAK]
    rw [peakCheck, pic32_minPeak, pic32_maxPeak, if_neg hnotmin, if_pos hhigh_gt]
  refine ⟨?_, hvarpos, ?_, ?_, ?_, ?_, ?_, ?_, ?_, ?_, hmin, ?_, ?_, hmax, hlow, hhigh,
    hmean0, hmean1023, hvrep, hvlow, hv01023, hvhigh_gt, hvhigh,
    hkurt01023, hkfloor, hkcheckLow, hkhw_kurt, hkhigh_gt, hkcheckHigh,
    hranges1, hranges2, hpb, hlow_pos, hlow_lt, hpkLow, hhigh_gt, hhigh_le, hpkHigh⟩ <;>
    norm_num [STATTEST_MIN_MEAN, STATTEST_MAX_MEAN, STATTEST_CENTRAL_MEAN,
      STATTEST_MIN_VARIANCE, STATTEST_MAX_VARIANCE, STATTEST_CENTRAL_VARIANCE,
      STATTEST_MIN_KURTOSIS, STATTEST_MAX_KURTOSIS, PSD_MIN_PEAK, PSD_MAX_PEAK,
      STATTEST_MAX_SKEWNESS, PSD_BANDWIDTH_THRESHOLD]

/-- Claim C7: for every window whose mean is 0, the mean sub-test fails with
`MeanLow`, because the minimum acceptable mean
`0.901 * 511.5 - 75.0 - 8.0 = 377.8615` is strictly positive. -/
theorem c7_zero_mean_fails_low (w : List ℝ) (h : mean w = 0) :
    meanCheck pic32Limits (mean w) = .fail .MeanLow 0 ∧
    0 < STATTEST_MIN_MEAN ∧
    STATTEST_MIN_MEAN = 377.8615 := by
  have hmin : (0:ℝ) < STATTEST_MIN_MEAN := by
    norm_num [STATTEST_MIN_MEAN, STATTEST_CENTRAL_MEAN]
  refine ⟨?_, hmin, by norm_num [STATTEST_MIN_MEAN, STATTEST_CENTRAL_MEAN]⟩
  rw [h, meanCheck, if_pos]
  exact hmin

/-- Witness for C7: the all-zero single-sample window has mean 0 and fails the
mean sub-test with `MeanLow`. -/
theorem c7_zero_mean_fails_low_witness :
    mean [(0:ℝ)] = 0 ∧ meanCheck pic32Limits (mean [(0:ℝ)]) = .fail .MeanLow 0 := by
  have h : mean [(0:ℝ)] = 0 := by simp [mean]
  exact ⟨h, (c7_zero_mean_fails_low [(0:ℝ)] h).1⟩

/-- Claim C3: every constant-valued window has variance 0; the variance
sub-test fails with `VarianceLow` (the variance lower limit is strictly
positive), the zero variance is detected in the moment estimator before the
standardised moments are formed, and skewness and kurtosis are reported as
not computable rather than as garbage values. -/
theorem c3_constant_window_variance_low (n : ℕ) (c : ℝ) :
    variance (List.replicate n c) = 0 ∧
    varianceCheck pic32Limits (variance (List.replicate n c)) = .fail .VarianceLow 0 ∧
    0 < STATTEST_MIN_VARIANCE ∧
    (momentsOf (List.replicate n c)).skewness = none ∧
    (momentsOf (List.replicate n c)).kurtosis = none ∧
    skewnessCheck pic32Limits (momentsOf (List.replicate n c)).skewness = .notComputable ∧
    kurtosisCheck pic32Limits (momentsOf (List.replicate n c)).kurtosis = .notComputable := by
  have hv := variance_replicate n c
  have hpos : (0:ℝ) < STATTEST_MIN_VARIANCE := by
    norm_num [STATTEST_MIN_VARIANCE, STATTEST_CENTRAL_VARIANCE]
  have hskew : (momentsOf (List.replicate n c)).skewness = none := by
    simp only [momentsOf]
    rw [if_pos hv]
  have hkurt : (momentsOf (List.replicate n c)).kurtosis = none := by
    simp only [momentsOf]
    rw [if_pos hv]
  refine ⟨hv, ?_, hpos, hskew, hkurt, ?_, ?_⟩
  · rw [hv, varianceCheck, if_pos]
    exact hpos
  · rw [hskew, skewnessCheck]
  · rw [hkurt, kurtosisCheck]

/-! ## Entropy bounds -/

lemma entropy_lower (v : ℝ) (hv : STATTEST_MIN_VARIANCE ≤ v) :
    (6.25:ℝ) ≤ entropyEstimate v := by
  have hpi : (3.141592:ℝ) < Real.pi := Real.pi_gt_d6
  have he : (2.7182818283:ℝ) < Real.exp 1 := Real.exp_one_gt_d9
  have hv' : (440.31:ℝ) ≤ v := by
    refine le_trans ?_ hv
    norm_num [STATTEST_MIN_VARIANCE, STATTEST_CENTRAL_VARIANCE]
  have hpe : (8.5397:ℝ) ≤ Real.pi * Real.exp 1 := by nlinarith [hpi, he]
  have hX : (5793:ℝ) ≤ 2 * Real.pi * Real.exp 1 * v := by nlinarith [hpe, hv']
  have ha_pos : (0:ℝ) < (2:ℝ) ^ ((25:ℝ)/2) := Real.rpow_pos_of_pos two_pos _
  have ha_sq : (2:ℝ) ^ ((25:ℝ)/2) * (2:ℝ) ^ ((25:ℝ)/2) = 33554432 := by
    rw [← Real.rpow_add two_pos]
    norm_num
  have ha_le : (2:ℝ) ^ ((25:ℝ)/2) ≤ 5793 := by
    nlinarith [ha_pos, ha_sq, sq_nonneg ((2:ℝ) ^ ((25:ℝ)/2) - 5793)]
  have hX2 : (2:ℝ) ^ ((25:ℝ)/2) ≤ 2 * Real.pi * Real.exp 1 * v := ha_le.trans hX
  have hlog : Real.log ((2:ℝ) ^ ((25:ℝ)/2)) ≤ Real.log (2 * Real.pi * Real.exp 1 * v) :=
    Real.log_le_log ha_pos hX2
  rw [Real.log_rpow two_pos] at hlog
  have hlog2 : (0:ℝ) < Real.log 2 := Real.log_pos (by norm_num)
  rw [entropyEstimate, Real.logb]
  have hdiv : (25/2 : ℝ) ≤ Real.log (2 * Real.pi * Real.exp 1 * v) / Real.log 2 :=
    (le_div_iff₀ hlog2).mpr (by linarith)
  linarith

/-- Claim C9: the entropy bound is redundant given the variance lower bound —
the Gaussian-model entropy estimate at `STATTEST_MIN_VARIANCE` already exceeds
`STATTEST_MIN_ENTROPY = 6.21`, every variance passing the variance lower bound
yields a passing entropy estimate, and the entropy sub-test can only fail on a
variance that also fails the variance sub-test with `VarianceLow`. -/
theorem c9_entropy_redundant :
    STATTEST_MIN_ENTROPY < entropyEstimate STATTEST_MIN_VARIANCE ∧
    (∀ v : ℝ, STATTEST_MIN_VARIANCE ≤ v → entropyCheck pic32Limits v = .pass) ∧
    (∀ v : ℝ, entropyCheck pic32Limits v ≠ .pass →
      varianceCheck pic32Limits v = .fail .VarianceLow v) := by
  have h1 : STATTEST_MIN_ENTROPY < entropyEstimate STATTEST_MIN_VARIANCE := by
    have hb := entropy_lower STATTEST_MIN_VARIANCE le_rfl
    have hc : STATTEST_MIN_ENTROPY < (6.25:ℝ) := by norm_num [STATTEST_MIN_ENTROPY]
    linarith
  have h2 : ∀ v : ℝ, STATTEST_MIN_VARIANCE ≤ v → entropyCheck pic32Limits v = SubOutcome.pass := by
    intro v hv
    rw [entropyCheck, if_neg]
    exact not_lt.mpr (le_trans (by norm_num [STATTEST_MIN_ENTROPY]) (entropy_lower v hv))
  refine ⟨h1, h2, ?_⟩
  intro v hne
  by_cases hv : STATTEST_MIN_VARIANCE ≤ v
  · exact absurd (h2 v hv) hne
  · push_neg at hv
    rw [varianceCheck, if_pos]
    exact hv

/-- Witness for C9: the nominal variance 1402.3 passes the variance lower bound
and therefore passes the entropy sub-test, by the redundancy theorem. -/
theorem c9_entropy_redundant_witness :
    STATTEST_MIN_VARIANCE ≤ (1402.3:ℝ) ∧
    entropyCheck pic32Limits (1402.3:ℝ) = .pass := by
  have h : STATTEST_MIN_VARIANCE ≤ (1402.3:ℝ) := by
    norm_num [STATTEST_MIN_VARIANCE, STATTEST_CENTRAL_VARIANCE]
  exact ⟨h, c9_entropy_redundant.2.1 1402.3 h⟩

/-- Claim C2: every sample window whose computed statistics are exactly the
nominal calibration values — mean 511.5, variance 1402.3, skewness 0, excess
kurtosis 0 — passes the mean, variance, skewness, kurtosis and entropy
sub-tests; 511.5 lies strictly between the mean limits, 1402.3 strictly
between the variance limits, and the Gaussian-model entropy estimate of
1402.3 is at least `STATTEST_MIN_ENTROPY = 6.21`. -/
theorem c2_nominal_statistics_pass (w : List ℝ)
    (hm : mean w = 511.5) (hv : variance w = 1402.3)
    (hs : (momentsOf w).skewness = some 0) (hk : (momentsOf w).kurtosis = some 0) :
    meanCheck pic32Limits (mean w) = .pass ∧
    varianceCheck pic32Limits (variance w) = .pass ∧
    skewnessCheck pic32Limits ((momentsOf w).skewness) = .pass ∧
    kurtosisCheck pic32Limits ((momentsOf w).kurtosis) = .pass ∧
    entropyCheck pic32Limits (variance w) = .pass ∧
    STATTEST_MIN_MEAN < 511.5 ∧ (511.5:ℝ) < STATTEST_MAX_MEAN ∧
    STATTEST_MIN_VARIANCE < 1402.3 ∧ (1402.3:ℝ) < STATTEST_MAX_VARIANCE ∧
    STATTEST_MIN_ENTROPY ≤ entropyEstimate 1402.3 := by
  have hminm : STATTEST_MIN_MEAN < (511.5:ℝ) := by
    norm_num [STATTEST_MIN_MEAN, STATTEST_CENTRAL_MEAN]
  have hmaxm : (511.5:ℝ) < STATTEST_MAX_MEAN := by
    norm_num [STATTEST_MAX_MEAN, STATTEST_CENTRAL_MEAN]
  have hminv : STATTEST_MIN_VARIANCE < (1402.3:ℝ) := by
    norm_num [STATTEST_MIN_VARIANCE, STATTEST_CENTRAL_VARIANCE]
  have hmaxv : (1402.3:ℝ) < STATTEST_MAX_VARIANCE := by
    norm_num [STATTEST_MAX_VARIANCE, STATTEST_CENTRAL_VARIANCE]
  have hent : STATTEST_MIN_ENTROPY ≤ entropyEstimate 1402.3 := by
    refine le_trans (by norm_num [STATTEST_MIN_ENTROPY]) (entropy_lower 1402.3 ?_)
    norm_num [STATTEST_MIN_VARIANCE, STATTEST_CENTRAL_VARIANCE]
  refine ⟨?_, ?_, ?_, ?_, ?_, hminm, hmaxm, hminv, hmaxv, hent⟩
  · rw [hm, meanCheck, pic32_minMean, pic32_maxMean,
      if_neg (not_lt.mpr hminm.le), if_neg (not_lt.mpr hmaxm.le)]
  · rw [hv, varianceCheck, pic32_minVariance, pic32_maxVariance,
      if_neg (not_lt.mpr hminv.le), if_neg (not_lt.mpr hmaxv.le)]
  · rw [hs, skewnessCheck, if_neg]
    rw [pic32_maxSkewness]
    norm_num [STATTEST_MAX_SKEWNESS]
  · rw [hk, kurtosisCheck, if_neg, if_neg]
    · rw [pic32_maxKurtosis]
      norm_num [STATTEST_MAX_KURTOSIS]
    · rw [pic32_minKurtosis]
      norm_num [STATTEST_MIN_KURTOSIS]
  · rw [hv, entropyCheck, if_neg]
    exact not_lt.mpr (le_trans (by norm_num [STATTEST_MIN_ENTROPY])
      (entropy_lower _ hminv.le))

lemma calib_mean : mean calibWindow = 511.5 := by
  rw [mean, sum_range_getD_id]
  simp only [calibWindow, List.sum_cons, List.sum_nil, List.length_cons, List.length_nil]
  ring_nf

lemma calib_variance : variance calibWindow = 1402.3 := by
  have hc2 : centralSum calibWindow 2 =
      (calibWindow.map (fun x => (x - mean calibWindow) ^ 2)).sum :=
    sum_range_getD calibWindow (fun x => (x - mean calibWindow) ^ 2)
  rw [variance, hc2, calib_mean]
  have hs2 : Real.sqrt (42069/10) ^ 2 = 42069/10 := Real.sq_sqrt (by norm_num)
  simp only [calibWindow, List.map_cons, List.map_nil, List.sum_cons, List.sum_nil,
    List.length_cons, List.length_nil]
  ring_nf
  rw [hs2]
  norm_num

lemma calib_skewness : (momentsOf calibWindow).skewness = some 0 := by
  have hvar_ne : variance calibWindow ≠ 0 := by
    rw [calib_variance]
    norm_num
  have hc3 : centralSum calibWindow 3 =
      (calibWindow.map (fun x => (x - mean calibWindow) ^ 3)).sum :=
    sum_range_getD calibWindow (fun x => (x - mean calibWindow) ^ 3)
  simp only [momentsOf]
  rw [if_neg hvar_ne]
  have hz : skewness calibWindow = 0 := by
    rw [skewness, hc3, calib_mean]
    simp only [calibWindow, List.map_cons, List.map_nil, List.sum_cons, List.sum_nil,
      List.length_cons, List.length_nil]
    ring_nf
  rw [hz]

lemma calib_kurtosis : (momentsOf calibWindow).kurtosis = some 0 := by
  have hvar_ne : variance calibWindow ≠ 0 := by
    rw [calib_variance]
    norm_num
  have hc4 : centralSum calibWindow 4 =
      (calibWindow.map (fun x => (x - mean calibWindow) ^ 4)).sum :=
    sum_range_getD calibWindow (fun x => (x - mean calibWindow) ^ 4)
  simp only [momentsOf]
  rw [if_neg hvar_ne]
  have hz : kurtosis calibWindow = 0 := by
    rw [kurtosis, hc4, calib_mean, calib_variance]
    have hs2 : Real.sqrt (42069/10) ^ 2 = 42069/10 := Real.sq_sqrt (by norm_num)
    have hs4 : Real.sqrt (42069/10) ^ 4 = (42069/10) ^ 2 := by
      rw [show (4:ℕ) = 2 * 2 by norm_num, pow_mul, hs2]
    simp only [calibWindow, List.map_cons, List.map_nil, List.sum_cons, List.sum_nil,
      List.length_cons, List.length_nil]
    ring_nf
    rw [hs4]
    norm_num
  rw [hz]

/-- Witness for C2: the six-sample calibration window has exactly the nominal
statistics, and all listed sub-tests pass on it by the claim theorem. -/
theorem c2_nominal_statistics_pass_witness :
    mean calibWindow = 511.5 ∧ variance calibWindow = 1402.3 ∧
    (momentsOf calibWindow).skewness = some 0 ∧
    (momentsOf calibWindow).kurtosis = some 0 ∧
    meanCheck pic32Limits (mean calibWindow) = .pass ∧
    varianceCheck pic32Limits (variance calibWindow) = .pass ∧
    skewnessCheck pic32Limits ((momentsOf calibWindow).skewness) = .pass ∧
    kurtosisCheck pic32Limits ((momentsOf calibWindow).kurtosis) = .pass ∧
    entropyCheck pic32Limits (variance calibWindow) = .pass := by
  obtain ⟨p1, p2, p3, p4, p5, _⟩ :=
    c2_nominal_statistics_pass calibWindow calib_mean calib_variance
      calib_skewness calib_kurtosis
  exact ⟨calib_mean, calib_variance, calib_skewness, calib_kurtosis, p1, p2, p3, p4, p5⟩

/-! ## Peak detection -/

lemma foldl_peak_spec (s : List ℝ) :
    ∀ (l : List ℕ) (init : ℕ),
      ((l.foldl (fun best j => if s.getD best 0 < s.getD j 0 then j else best) init) = init ∨
        (l.foldl (fun best j => if s.getD best 0 < s.getD j 0 then j else best) init) ∈ l) ∧
      s.getD init 0 ≤
        s.getD (l.foldl (fun best j => if s.getD best 0 < s.getD j 0 then j else best) init) 0 ∧
      ∀ j ∈ l, s.getD j 0 ≤
        s.getD (l.foldl (fun best j => if s.getD best 0 < s.getD j 0 then j else best) init) 0 := by
  intro l
  induction l with
  | nil => exact fun init => ⟨Or.inl rfl, le_refl _, by simp⟩
  | cons a rest ih =>
    intro init
    simp only [List.foldl_cons]
    obtain ⟨hmem, hle, hall⟩ := ih (if s.getD init 0 < s.getD a 0 then a else init)
    have hinit_le : s.getD init 0 ≤ s.getD (if s.getD init 0 < s.getD a 0 then a else init) 0 := by
      split_ifs with h
      · exact le_of_lt h
      · exact le_refl _
    have ha_le : s.getD a 0 ≤ s.getD (if s.getD init 0 < s.getD a 0 then a else init) 0 := by
      split_ifs with h
      · exact le_refl _
      · exact le_of_not_lt h
    refine ⟨?_, hinit_le.trans hle, ?_⟩
    · rcases hmem with h | h
      · rw [h]
        split_ifs with hc
        · exact Or.inr (List.mem_cons_self a rest)
        · exact Or.inl rfl
      · exact Or.inr (List.mem_cons_of_mem a h)
    · intro j hj
      rcases List.mem_cons.mp hj with h | h
      · rw [h]
        exact ha_le.trans hle
      · exact hall j h

lemma peakBin_ge_one (s : List ℝ) : 1 ≤ peakBin s := by
  rw [peakBin]
  obtain ⟨hmem, _, _⟩ := foldl_peak_spec s (List.range' 1 (s.length - 1)) 1
  rcases hmem with h | h
  · rw [h]
  · exact (List.mem_range'_1.mp h).1

lemma peakBin_is_max (s : List ℝ) :
    ∀ j, 1 ≤ j → j < s.length → s.getD j 0 ≤ s.getD (peakBin s) 0 := by
  intro j h1 h2
  rw [peakBin]
  obtain ⟨_, hinit, hall⟩ := foldl_peak_spec s (List.range' 1 (s.length - 1)) 1
  rcases eq_or_lt_of_le h1 with he | _
  · rw [← he]
    exact hinit
  · exact hall j (List.mem_range'_1.mpr ⟨h1, by omega⟩)

/-- Claim C6: the peak bin is a frequency bin of maximum PSD value with the DC
bin excluded, its frequency is the bin index as a fraction of the sampling
rate, and the peak sub-test fails with `PeakFrequencyLow` exactly when that
fraction is below `PSD_MIN_PEAK = 0.0208` and with `PeakFrequencyHigh`
exactly when it is above `PSD_MAX_PEAK = 0.375`, passing otherwise. -/
theorem c6_peak_bin_check (s : List ℝ) (N : ℕ) :
    1 ≤ peakBin s ∧
    (∀ j, 1 ≤ j → j < s.length → s.getD j 0 ≤ s.getD (peakBin s) 0) ∧
    peakFreqFrac N s = (peakBin s : ℝ) / (N : ℝ) ∧
    (peakCheck pic32Limits N s = .fail .PeakFrequencyLow (peakFreqFrac N s) ↔
      peakFreqFrac N s < PSD_MIN_PEAK) ∧
    (peakCheck pic32Limits N s = .fail .PeakFrequencyHigh (peakFreqFrac N s) ↔
      PSD_MAX_PEAK < peakFreqFrac N s) ∧
    (peakCheck pic32Limits N s = .pass ↔
      PSD_MIN_PEAK ≤ peakFreqFrac N s ∧ peakFreqFrac N s ≤ PSD_MAX_PEAK) ∧
    PSD_MIN_PEAK = 0.0208 ∧ PSD_MAX_PEAK = 0.375 := by
  refine ⟨peakBin_ge_one s, peakBin_is_max s, rfl, ?_, ?_, ?_, rfl, rfl⟩
  · rw [peakCheck, pic32_minPeak, pic32_maxPeak]
    split_ifs with h1 h2
    · exact iff_of_true rfl h1
    · exact iff_of_false (by simp) h1
    · exact iff_of_false (by simp) h1
  · rw [peakCheck, pic32_minPeak, pic32_maxPeak]
    split_ifs with h1 h2
    · refine iff_of_false (by simp) (fun hc => ?_)
      have hcontra := lt_trans hc h1
      norm_num [PSD_MIN_PEAK, PSD_MAX_PEAK] at hcontra
    · exact iff_of_true rfl h2
    · exact iff_of_false (by simp) h2
  · rw [peakCheck, pic32_minPeak, pic32_maxPeak]
    split_ifs with h1 h2
    · exact iff_of_false (by simp) (fun hc => absurd hc.1 (not_le.mpr h1))
    · exact iff_of_false (by simp) (fun hc => absurd hc.2 (not_le.mpr h2))
    · exact iff_of_true rfl ⟨not_lt.mp h1, not_lt.mp h2⟩

/-! ## Band-edge detection -/

lemma findFirst_range'_spec (P : ℕ → Prop) (d : ℕ) :
    ∀ (m a : ℕ),
      (findFirst P d (List.range' a m) = d ∧ ∀ j, a ≤ j → j < a + m → ¬ P j) ∨
      (a ≤ findFirst P d (List.range' a m) ∧ findFirst P d (List.range' a m) < a + m ∧
        P (findFirst P d (List.range' a m)) ∧
        ∀ j, a ≤ j → j < findFirst P d (List.range' a m) → ¬ P j) := by
  intro m
  induction m with
  | zero =>
    intro a
    left
    exact ⟨rfl, fun j h1 h2 => absurd h2 (by omega)⟩
  | succ n ih =>
    intro a
    rw [List.range'_succ]
    simp only [findFirst]
    split_ifs with hPa
    · right
      exact ⟨le_refl a, by omega, hPa, fun j h1 h2 => absurd h2 (by omega)⟩
    · rcases ih (a + 1) with ⟨heq, hnone⟩ | ⟨h1, h2, h3, h4⟩
      · left
        refine ⟨heq, fun j hj1 hj2 => ?_⟩
        rcases eq_or_lt_of_le hj1 with he | hgt
        · rw [← he]
          exact hPa
        · exact hnone j hgt (by omega)
      · right
        refine ⟨by omega, by omega, h3, fun j hj1 hj2 => ?_⟩
        rcases eq_or_lt_of_le hj1 with he | hgt
        · rw [← he]
          exact hPa
        · exact h4 j hgt hj2

lemma findFirst_rev_spec (P : ℕ → Prop) (d : ℕ) :
    ∀ p : ℕ,
      (findFirst P d ((List.range' 0 (p + 1)).reverse) = d ∧ ∀ j, j ≤ p → ¬ P j) ∨
      (findFirst P d ((List.range' 0 (p + 1)).reverse) ≤ p ∧
        P (findFirst P d ((List.range' 0 (p + 1)).reverse)) ∧
        ∀ j, findFirst P d ((List.range' 0 (p + 1)).reverse) < j → j ≤ p → ¬ P j) := by
  intro p
  induction p with
  | zero =>
    rw [show (List.range' 0 1).reverse = [0] from rfl]
    simp only [findFirst]
    split_ifs with h
    · right
      exact ⟨le_refl 0, h, fun j hj1 hj2 => by omega⟩
    · left
      refine ⟨rfl, fun j hj => ?_⟩
      have hj0 : j = 0 := by omega
      rw [hj0]
      exact h
  | succ n ih =>
    have hsplit : (List.range' 0 (n + 1 + 1)).reverse = (n + 1) :: (List.range' 0 (n + 1)).reverse := by
      rw [List.range'_concat, List.reverse_append]
      simp
    rw [hsplit]
    simp only [findFirst]
    split_ifs with hP
    · right
      exact ⟨le_refl _, hP, fun j hj1 hj2 => by omega⟩
    · rcases ih with ⟨heq, hnone⟩ | ⟨h1, h2, h3⟩
      · left
        refine ⟨heq, fun j hj => ?_⟩
        rcases Nat.lt_or_ge j (n + 1) with hlt | hge
        · exact hnone j (by omega)
        · have hje : j = n + 1 := by omega
          rw [hje]
          exact hP
      · right
        refine ⟨by omega, h2, fun j hj1 hj2 => ?_⟩
        rcases Nat.lt_or_ge j (n + 1) with hlt | hge
        · exact h3 j hj1 (by omega)
        · have hje : j = n + 1 := by omega
          rw [hje]
          exact hP

lemma upperEdge_spec (reps : ℕ) (s : List ℝ) (t : ℝ) (p : ℕ) :
    (upperEdge reps s t p = s.length - 1 ∧
      ∀ j, p ≤ j → j < s.length → ¬ edgeRun reps s t j) ∨
    (p ≤ upperEdge reps s t p ∧ upperEdge reps s t p < s.length ∧
      edgeRun reps s t (upperEdge reps s t p) ∧
      ∀ j, p ≤ j → j < upperEdge reps s t p → ¬ edgeRun reps s t j) := by
  rw [upperEdge]
  rcases findFirst_range'_spec (edgeRun reps s t) (s.length - 1) (s.length - p) p with
    ⟨h1, h2⟩ | ⟨h1, h2, h3, h4⟩
  · left
    exact ⟨h1, fun j hj1 hj2 => h2 j hj1 (by omega)⟩
  · right
    exact ⟨h1, by omega, h3, h4⟩

lemma lowerEdge_spec (reps : ℕ) (s : List ℝ) (t : ℝ) (p : ℕ) :
    (lowerEdge reps s t p = 0 ∧ ∀ j, j ≤ p → ¬ lowEdgeRun reps s t j) ∨
    (lowerEdge reps s t p ≤ p ∧ lowEdgeRun reps s t (lowerEdge reps s t p) ∧
      ∀ j, lowerEdge reps s t p < j → j ≤ p → ¬ lowEdgeRun reps s t j) := by
  rw [lowerEdge]
  exact findFirst_rev_spec (lowEdgeRun reps s t) 0 p

/-- Claim C5: the band edges are found by scanning outward from the peak bin,
an edge being declared at the first bin opening a run of
`PSD_THRESHOLD_REPETITIONS = 5` consecutive bins below
`PSD_BANDWIDTH_THRESHOLD = 0.03` times the peak value (the spectrum boundary
if no such run exists); the bandwidth is upper edge minus lower edge as a
fraction of the sampling rate, and the spectral sub-test reports
`BandwidthTooNarrow` exactly when it is below `PSD_MIN_BANDWIDTH = 0.1875`. -/
theorem c5_bandwidth_edge_detection (s : List ℝ) (N : ℕ) :
    bandwidthFrac pic32Limits N s =
      ((psdUpperEdge pic32Limits s : ℝ) - (psdLowerEdge pic32Limits s : ℝ)) / (N : ℝ) ∧
    psdThreshold pic32Limits s = PSD_BANDWIDTH_THRESHOLD * s.getD (peakBin s) 0 ∧
    PSD_BANDWIDTH_THRESHOLD = 0.03 ∧
    PSD_THRESHOLD_REPETITIONS = 5 ∧
    PSD_MIN_BANDWIDTH = 0.1875 ∧
    ((psdUpperEdge pic32Limits s = s.length - 1 ∧
        ∀ j, peakBin s ≤ j → j < s.length →
          ¬ edgeRun PSD_THRESHOLD_REPETITIONS s (psdThreshold pic32Limits s) j) ∨
      (peakBin s ≤ psdUpperEdge pic32Limits s ∧ psdUpperEdge pic32Limits s < s.length ∧
        edgeRun PSD_THRESHOLD_REPETITIONS s (psdThreshold pic32Limits s)
          (psdUpperEdge pic32Limits s) ∧
        ∀ j, peakBin s ≤ j → j < psdUpperEdge pic32Limits s →
          ¬ edgeRun PSD_THRESHOLD_REPETITIONS s (psdThreshold pic32Limits s) j)) ∧
    ((psdLowerEdge pic32Limits s = 0 ∧
        ∀ j, j ≤ peakBin s →
          ¬ lowEdgeRun PSD_THRESHOLD_REPETITIONS s (psdThreshold pic32Limits s) j) ∨
      (psdLowerEdge pic32Limits s ≤ peakBin s ∧
        lowEdgeRun PSD_THRESHOLD_REPETITIONS s (psdThreshold pic32Limits s)
          (psdLowerEdge pic32Limits s) ∧
        ∀ j, psdLowerEdge pic32Limits s < j → j ≤ peakBin s →
          ¬ lowEdgeRun PSD_THRESHOLD_REPETITIONS s (psdThreshold pic32Limits s) j)) ∧
    (bandwidthCheck pic32Limits N s =
        .fail .BandwidthTooNarrow (bandwidthFrac pic32Limits N s) ↔
      bandwidthFrac pic32Limits N s < PSD_MIN_BANDWIDTH) ∧
    (bandwidthCheck pic32Limits N s = .pass ↔
      PSD_MIN_BANDWIDTH ≤ bandwidthFrac pic32Limits N s) := by
  refine ⟨rfl, rfl, rfl, rfl, rfl, ?_, ?_, ?_, ?_⟩
  · exact upperEdge_spec pic32Limits.thresholdRepetitions s (psdThreshold pic32Limits s)
      (peakBin s)
  · exact lowerEdge_spec pic32Limits.thresholdRepetitions s (psdThreshold pic32Limits s)
      (peakBin s)
  · rw [bandwidthCheck, pic32_minBandwidth]
    split_ifs with h1
    · exact iff_of_true rfl h1
    · exact iff_of_false (by simp) h1
  · rw [bandwidthCheck, pic32_minBandwidth]
    split_ifs with h1
    · exact iff_of_false (by simp) (not_le.mpr h1)
    · exact iff_of_true rfl (not_lt.mp h1)

/-! ## Autocorrelation bounds -/

lemma centralSum_two_nonneg (w : List ℝ) : 0 ≤ centralSum w 2 := by
  rw [centralSum]
  exact Finset.sum_nonneg fun i _ => sq_nonneg _

lemma variance_nonneg (w : List ℝ) : 0 ≤ variance w :=
  div_nonneg (centralSum_two_nonneg w) (Nat.cast_nonneg _)

lemma centralSum_two_eq (w : List ℝ) : centralSum w 2 = (w.length : ℝ) * variance w := by
  rcases Nat.eq_zero_or_pos w.length with h0 | hpos
  · simp [centralSum, variance, h0]
  · rw [variance]
    field_simp

lemma acorrNum_abs_le (w : List ℝ) (k : ℕ) :
    |acorrNum w k| ≤ (w.length : ℝ) * variance w := by
  have hCS := Finset.sum_mul_sq_le_sq_mul_sq (Finset.range (w.length - k))
    (fun i => w.getD i 0 - mean w) (fun i => w.getD (i + k) 0 - mean w)
  have hA : ∑ i ∈ Finset.range (w.length - k), (w.getD i 0 - mean w) ^ 2 ≤
      (w.length : ℝ) * variance w := by
    rw [← centralSum_two_eq, centralSum]
    apply Finset.sum_le_sum_of_subset_of_nonneg
    · exact Finset.range_subset.mpr (by omega)
    · exact fun i _ _ => sq_nonneg _
  have hB : ∑ i ∈ Finset.range (w.length - k), (w.getD (i + k) 0 - mean w) ^ 2 ≤
      (w.length : ℝ) * variance w := by
    have h1 : ∑ i ∈ Finset.range (w.length - k), (w.getD (i + k) 0 - mean w) ^ 2
        = ∑ j ∈ Finset.Ico k w.length, (w.getD j 0 - mean w) ^ 2 := by
      rw [Finset.sum_Ico_eq_sum_range]
      exact Finset.sum_congr rfl fun i _ => by rw [add_comm]
    rw [h1, ← centralSum_two_eq, centralSum]
    apply Finset.sum_le_sum_of_subset_of_nonneg
    · intro j hj
      exact Finset.mem_range.mpr (Finset.mem_Ico.mp hj).2
    · exact fun i _ _ => sq_nonneg _
  have hBnn : (0:ℝ) ≤ ∑ i ∈ Finset.range (w.length - k), (w.getD (i + k) 0 - mean w) ^ 2 :=
    Finset.sum_nonneg fun i _ => sq_nonneg _
  have hNv : (0:ℝ) ≤ (w.length : ℝ) * variance w :=
    mul_nonneg (Nat.cast_nonneg _) (variance_nonneg w)
  have hS2 : acorrNum w k ^ 2 ≤ ((w.length : ℝ) * variance w) ^ 2 := by
    calc acorrNum w k ^ 2
        ≤ (∑ i ∈ Finset.range (w.length - k), (w.getD i 0 - mean w) ^ 2) *
            ∑ i ∈ Finset.range (w.length - k), (w.getD (i + k) 0 - mean w) ^ 2 := by
          rw [acorrNum]
          exact hCS
      _ ≤ ((w.length : ℝ) * variance w) * ((w.length : ℝ) * variance w) :=
          mul_le_mul hA hB hBnn hNv
      _ = ((w.length : ℝ) * variance w) ^ 2 := (sq ((w.length : ℝ) * variance w)).symm
  nlinarith [hS2, abs_nonneg (acorrNum w k), sq_abs (acorrNum w k), hNv,
    sq_nonneg (|acorrNum w k| - (w.length : ℝ) * variance w)]

lemma abs_autocorr_le_one (w : List ℝ) (k : ℕ) : |autocorr w k| ≤ 1 := by
  rw [autocorr]
  rcases eq_or_ne ((w.length : ℝ) * variance w) 0 with h0 | hne
  · rw [h0, div_zero, abs_zero]
    exact zero_le_one
  · have hpos : 0 < (w.length : ℝ) * variance w :=
      lt_of_le_of_ne (mul_nonneg (Nat.cast_nonneg _) (variance_nonneg w)) (Ne.symm hne)
    rw [abs_div, abs_of_pos hpos, div_le_one hpos]
    exact acorrNum_abs_le w k

lemma autocorrCheck_always_pass (L : TestLimits) (hL : 1 < L.autocorrThreshold)
    (w : List ℝ) : autocorrCheck L w = .pass := by
  rw [autocorrCheck, dif_neg]
  rintro ⟨k, _, _, hgt⟩
  have hlt : |autocorr w k| < L.autocorrThreshold :=
    (abs_autocorr_le_one w k).trans_lt hL
  exact absurd hgt (not_lt.mpr hlt.le)

/-- Counterexample for claim C4: the 32-sample window alternating between the
two fixed values 2 and 0 with period 2 has maximal short-range correlation and
its checked lag range [7, 8] is non-empty, yet the autocorrelation sub-test
passes instead of failing with `AutocorrelationExceeded`: under the spec's
normalisation `r(k) = acorrNum / (N * variance)` the magnitude of `r(k)` never
exceeds 1, which is below `AUTOCORR_THRESHOLD = 2.8`. -/
theorem c4_alternating_window_counterexample :
    autocorrCheck pic32Limits (altWindow 2 0 32) = SubOutcome.pass :=
  autocorrCheck_always_pass pic32Limits
    (by rw [pic32_autocorrThreshold]; norm_num [AUTOCORR_THRESHOLD]) (altWindow 2 0 32)

/-- Claim C4 (amended): for every window alternating between two fixed values
with period 2, the normalised autocorrelation
`r(k) = acorrNum / (N * variance)` has magnitude at most 1 at every lag, which
is strictly below `AUTOCORR_THRESHOLD = 2.8`, so the autocorrelation sub-test
passes rather than failing with `AutocorrelationExceeded`; the sub-test can
only fail when some lag between `AUTOCORR_START_LAG = 7` and the maximum
checked lag exceeds the threshold, so lags 1 through 6 and lag 0 are never
checked. -/
theorem c4_alternating_window_amended (a b : ℝ) (m : ℕ) :
    (∀ k, |autocorr (altWindow a b m) k| ≤ 1) ∧
    (1:ℝ) < AUTOCORR_THRESHOLD ∧
    autocorrCheck pic32Limits (altWindow a b m) = SubOutcome.pass ∧
    (∀ w : List ℝ, autocorrCheck pic32Limits w ≠ SubOutcome.pass ↔
      ∃ k, AUTOCORR_START_LAG ≤ k ∧ k ≤ autocorrMaxLag w ∧
        AUTOCORR_THRESHOLD < |autocorr w k|) := by
  have hthr : (1:ℝ) < AUTOCORR_THRESHOLD := by norm_num [AUTOCORR_THRESHOLD]
  refine ⟨fun k => abs_autocorr_le_one _ k, hthr,
    autocorrCheck_always_pass pic32Limits hthr _, fun w => ?_⟩
  constructor
  · intro hne
    by_cases hb : autocorrBad pic32Limits w
    · exact hb
    · rw [autocorrCheck, dif_neg hb] at hne
      exact absurd rfl hne
  · intro hb
    have hb' : autocorrBad pic32Limits w := hb
    rw [autocorrCheck, dif_pos hb']
    simp

end Hwrng
